import Mathlib

/-!
Verification of the book-inventory dashboard calculators.

The definitions below are a shallow embedding of the row-wise arithmetic in
`book_inventory_risk_dashboard.py` (risk classifier), `book_inventory_dashboard.py`
(weeks-of-supply bucketing, replenishment planning, custom report fields) and
`dk_airflow.py` (batch Stock Risk column).  Numeric spreadsheet cells are modelled
as rationals; a missing cell (pandas `NaN`) is modelled as `Option ℚ = none` where
missing-data behaviour matters.
-/

namespace BooksDataset

/-- One inventory record, i.e. one spreadsheet row.  The fields are the columns
the calculators read: `Retailer number of units in stock`, `Current number of
units in DK warehouse`, `Number of units reatiler has ordered from DK`,
`Retailer sales out last week`, `Forecast sales for this week`,
`Forecast sales for next 4 weeks`, `Forecast sales for next 12 weeks`,
`Print status`. -/
structure InventoryRecord where
  unitsInStock : ℚ
  warehouseUnits : ℚ
  unitsOrdered : ℚ
  salesLastWeek : ℚ
  forecastThisWeek : ℚ
  forecast4wk : ℚ
  forecast12wk : ℚ
  printStatus : String
deriving DecidableEq

/-- pandas `series.replace(0, 1)` applied to one cell: a value of exactly 0
becomes 1, every other value is unchanged. -/
def replaceZeroOne (d : ℚ) : ℚ := if d = 0 then 1 else d

/-- pandas `series.clip` with a lower bound `l`, on one cell. -/
def clipLower (x l : ℚ) : ℚ := if x < l then l else x

/-- pandas `series.clip` with an upper bound `u`, on one cell. -/
def clipUpper (x u : ℚ) : ℚ := if u < x then u else x

/-- Derived metric, `book_inventory_risk_dashboard.py` line 40. -/
def weeks_until_stockout (r : InventoryRecord) : ℚ :=
  r.unitsInStock / replaceZeroOne r.forecastThisWeek

/-- Derived metric, `book_inventory_risk_dashboard.py` line 41. -/
def dk_warehouse_to_weekly_sales_ratio (r : InventoryRecord) : ℚ :=
  r.warehouseUnits / replaceZeroOne r.salesLastWeek

/-- Derived metric, `book_inventory_risk_dashboard.py` line 42. -/
def total_available_to_12wk_forecast (r : InventoryRecord) : ℚ :=
  (r.unitsInStock + r.warehouseUnits) / replaceZeroOne r.forecast12wk

/-- Derived metric, `book_inventory_risk_dashboard.py` line 43. -/
def stock_to_weekly_sales_ratio (r : InventoryRecord) : ℚ :=
  r.unitsInStock / replaceZeroOne r.salesLastWeek

/-- Derived metric, `book_inventory_risk_dashboard.py` line 44. -/
def ordered_vs_forecasted (r : InventoryRecord) : ℚ :=
  r.unitsOrdered / replaceZeroOne r.forecast4wk

/-- First condition of `np.select` (`book_inventory_risk_dashboard.py` line 49). -/
def highStockoutCond (r : InventoryRecord) : Prop :=
  weeks_until_stockout r < 2 ∧ dk_warehouse_to_weekly_sales_ratio r < 4

/-- Second condition of `np.select` (`book_inventory_risk_dashboard.py` lines 52-53). -/
def overstockingCond (r : InventoryRecord) : Prop :=
  total_available_to_12wk_forecast r > 20 ∨
    (stock_to_weekly_sales_ratio r > 12 ∧ ordered_vs_forecasted r > 3 / 2)

instance (r : InventoryRecord) : Decidable (highStockoutCond r) := by
  unfold highStockoutCond
  exact inferInstance

instance (r : InventoryRecord) : Decidable (overstockingCond r) := by
  unfold overstockingCond
  exact inferInstance

/-- `np.select(conditions, choices, default)` (`book_inventory_risk_dashboard.py`
lines 47-56): the first condition that holds wins, otherwise the default. -/
def risk_category (r : InventoryRecord) : String :=
  if highStockoutCond r then "high_stockout_risk"
  else if overstockingCond r then "overstocking_risk"
  else "normal"

/-- The floor convention the specification states for the classifier call site:
a denominator of exactly 0 is replaced by 1. -/
def specZeroFloor (d : ℚ) : ℚ := if d = 0 then 1 else d

/-- C1: the risk classification evaluates rule 1 then rule 2 with the first match
winning: `high_stockout_risk` exactly when rule 1 holds; `overstocking_risk`
exactly when rule 1 fails and rule 2 holds; `normal` exactly when both fail; a
record satisfying both rules is labelled `high_stockout_risk`; every record gets
exactly one of the three labels. -/
theorem risk_classification_rule_order (r : InventoryRecord) :
    (risk_category r = "high_stockout_risk" ↔ highStockoutCond r) ∧
    (risk_category r = "overstocking_risk" ↔ ¬ highStockoutCond r ∧ overstockingCond r) ∧
    (risk_category r = "normal" ↔ ¬ highStockoutCond r ∧ ¬ overstockingCond r) ∧
    (highStockoutCond r ∧ overstockingCond r → risk_category r = "high_stockout_risk") := by
  unfold risk_category
  by_cases h1 : highStockoutCond r <;> by_cases h2 : overstockingCond r <;>
    simp [h1, h2]

/-- C1 witness: a concrete record satisfying both rules is labelled
`high_stockout_risk`. -/
theorem risk_classification_rule_order_witness :
    (highStockoutCond ⟨1, 1, 0, 1, 1, 1, 1 / 100, "In Print"⟩ ∧
      overstockingCond ⟨1, 1, 0, 1, 1, 1, 1 / 100, "In Print"⟩) ∧
    risk_category ⟨1, 1, 0, 1, 1, 1, 1 / 100, "In Print"⟩ = "high_stockout_risk" := by
  have hb : highStockoutCond ⟨1, 1, 0, 1, 1, 1, 1 / 100, "In Print"⟩ ∧
      overstockingCond ⟨1, 1, 0, 1, 1, 1, 1 / 100, "In Print"⟩ := by
    constructor
    · constructor <;>
        norm_num [weeks_until_stockout, dk_warehouse_to_weekly_sales_ratio, replaceZeroOne]
    · left
      norm_num [total_available_to_12wk_forecast, replaceZeroOne]
  exact ⟨hb, (risk_classification_rule_order ⟨1, 1, 0, 1, 1, 1, 1 / 100, "In Print"⟩).2.2.2 hb⟩

/-- C2: each of the five derived ratio metrics is its numerator divided by the
floored denominator, where the floor convention at this call site replaces a
denominator of exactly 0 by 1; the floored denominator is never zero, and a
record with zero this-week forecast gets `weeks_until_stockout` equal to
`units_in_stock / 1`. -/
theorem derived_metrics_zero_floor (r : InventoryRecord) :
    (weeks_until_stockout r = r.unitsInStock / specZeroFloor r.forecastThisWeek) ∧
    (dk_warehouse_to_weekly_sales_ratio r = r.warehouseUnits / specZeroFloor r.salesLastWeek) ∧
    (total_available_to_12wk_forecast r =
      (r.unitsInStock + r.warehouseUnits) / specZeroFloor r.forecast12wk) ∧
    (stock_to_weekly_sales_ratio r = r.unitsInStock / specZeroFloor r.salesLastWeek) ∧
    (ordered_vs_forecasted r = r.unitsOrdered / specZeroFloor r.forecast4wk) ∧
    (specZeroFloor r.forecastThisWeek ≠ 0 ∧ specZeroFloor r.salesLastWeek ≠ 0 ∧
      specZeroFloor r.forecast12wk ≠ 0 ∧ specZeroFloor r.forecast4wk ≠ 0) ∧
    weeks_until_stockout { r with forecastThisWeek := 0 } = r.unitsInStock / 1 := by
  refine ⟨rfl, rfl, rfl, rfl, rfl, ⟨?_, ?_, ?_, ?_⟩, ?_⟩
  · unfold specZeroFloor
    split_ifs with h <;> simp_all
  · unfold specZeroFloor
    split_ifs with h <;> simp_all
  · unfold specZeroFloor
    split_ifs with h <;> simp_all
  · unfold specZeroFloor
    split_ifs with h <;> simp_all
  · simp [weeks_until_stockout, replaceZeroOne]

/-- `Calculated WOS`, `book_inventory_dashboard.py` line 181: stock divided by the
this-week forecast clipped below at 0.1. -/
def calculatedWOS (r : InventoryRecord) : ℚ :=
  r.unitsInStock / clipLower r.forecastThisWeek (1 / 10)

/-- `WOS Category`, `book_inventory_dashboard.py` lines 186-194: `pd.cut` with bin
edges `[0, 4, 8, 12, 16, 20, 24, ∞)` and its default right-closed intervals, so a
value `x` lands in the bucket `(lo, hi]` and a value with `x ≤ 0` lands in no
bucket at all (pandas `NaN` category, modelled as `none`). -/
def wosCategory (x : ℚ) : Option String :=
  if x ≤ 0 then none
  else if x ≤ 4 then some "0-4 weeks"
  else if x ≤ 8 then some "4-8 weeks"
  else if x ≤ 12 then some "8-12 weeks"
  else if x ≤ 16 then some "12-16 weeks"
  else if x ≤ 20 then some "16-20 weeks"
  else if x ≤ 24 then some "20-24 weeks"
  else some "24+ weeks"

/-- `Weeks Coverage`, `book_inventory_dashboard.py` lines 355-356. -/
def weeksCoverage (r : InventoryRecord) : ℚ :=
  r.unitsInStock / clipLower (r.forecast4wk / 4) (1 / 10)

/-- Reprint candidate filter, `book_inventory_dashboard.py` lines 361-365. -/
def isReprintCandidate (r : InventoryRecord) : Bool :=
  decide (weeksCoverage r < 6) && decide (r.warehouseUnits < r.forecast4wk) &&
    decide (r.printStatus ≠ "Out of Print")

/-- `Recommended Reprint`, `book_inventory_dashboard.py` lines 369-373. -/
def recommendedReprint (r : InventoryRecord) : ℚ :=
  clipLower (r.forecast12wk * (3 / 2) - r.unitsInStock - r.warehouseUnits) 0

/-- Redistribution candidate filter, `book_inventory_dashboard.py` lines 389-392. -/
def isRedistributionCandidate (r : InventoryRecord) : Bool :=
  decide (weeksCoverage r < 8) && decide (r.warehouseUnits > r.forecast4wk * (1 / 2))

/-- `Recommended Transfer`, `book_inventory_dashboard.py` lines 395-398. -/
def recommendedTransfer (r : InventoryRecord) : ℚ :=
  clipUpper (clipLower (r.forecast4wk * 2 - r.unitsInStock) 0) r.warehouseUnits

/-- `Reprint Recommendation` of the custom-report builder,
`book_inventory_dashboard.py` lines 469-474. -/
def reprintRecommendationCustom (r : InventoryRecord) : ℚ :=
  clipLower (r.forecast12wk * (6 / 5) - r.unitsInStock - r.warehouseUnits) 0

/-- `Stock Risk` column of the scheduled batch job, `dk_airflow.py` lines 8-12. -/
def stockRisk (r : InventoryRecord) : String :=
  if r.unitsInStock + r.warehouseUnits < r.forecast4wk then "High" else "Low"

theorem clipLower_eq_max (x l : ℚ) : clipLower x l = max x l := by
  unfold clipLower
  split_ifs with h
  · exact (max_eq_right h.le).symm
  · exact (max_eq_left (not_lt.mp h)).symm

theorem clipUpper_eq_min (x u : ℚ) : clipUpper x u = min x u := by
  unfold clipUpper
  split_ifs with h
  · exact (min_eq_right h.le).symm
  · exact (min_eq_left (not_lt.mp h)).symm

/-- C3 counterexample: a weeks-of-supply value exactly at the boundary 4 falls
into the lower bucket `0-4 weeks`, not the upper bucket, and the value 0 falls
into no bucket at all. -/
theorem wos_boundary_counterexample :
    wosCategory 4 = some "0-4 weeks" ∧ wosCategory 4 ≠ some "4-8 weeks" ∧
    wosCategory 0 = none := by
  refine ⟨?_, ?_, ?_⟩ <;> norm_num [wosCategory]
  decide

/-- C3 amended: the bucketing partitions the positive values into left-open
right-closed intervals `(0,4] (4,8] (8,12] (12,16] (16,20] (20,24] (24,∞)`; a
value at a boundary falls into the lower bucket, a value `x ≤ 0` gets no bucket. -/
theorem wos_bucketing_left_open (x : ℚ) :
    ((wosCategory x).isSome = true ↔ 0 < x) ∧
    (wosCategory x = none ↔ x ≤ 0) ∧
    (wosCategory x = some "0-4 weeks" ↔ 0 < x ∧ x ≤ 4) ∧
    (wosCategory x = some "4-8 weeks" ↔ 4 < x ∧ x ≤ 8) ∧
    (wosCategory x = some "8-12 weeks" ↔ 8 < x ∧ x ≤ 12) ∧
    (wosCategory x = some "12-16 weeks" ↔ 12 < x ∧ x ≤ 16) ∧
    (wosCategory x = some "16-20 weeks" ↔ 16 < x ∧ x ≤ 20) ∧
    (wosCategory x = some "20-24 weeks" ↔ 20 < x ∧ x ≤ 24) ∧
    (wosCategory x = some "24+ weeks" ↔ 24 < x) := by
  unfold wosCategory
  split_ifs with h1 h2 h3 h4 h5 h6 h7 <;>
    refine ⟨?_, ?_, ?_, ?_, ?_, ?_, ?_, ?_, ?_⟩ <;>
    simp <;>
    first
      | linarith
      | (constructor <;> linarith)
      | (intros; linarith)

/-- C5: a record is a reprint candidate iff its 4-week stock coverage (floored
denominator) is below 6, its warehouse units are below the 4-week forecast and it
is not out of print; the recommended reprint quantity is
`max 0 (forecast_12wk * 1.5 - units_in_stock - warehouse_units)`, hence never
negative. -/
theorem reprint_candidate_rule (r : InventoryRecord) :
    (isReprintCandidate r = true ↔
      (r.unitsInStock / max (r.forecast4wk / 4) (1 / 10) < 6 ∧
        r.warehouseUnits < r.forecast4wk ∧ r.printStatus ≠ "Out of Print")) ∧
    recommendedReprint r =
      max 0 (r.forecast12wk * (3 / 2) - r.unitsInStock - r.warehouseUnits) ∧
    0 ≤ recommendedReprint r := by
  refine ⟨?_, ?_, ?_⟩
  · simp [isReprintCandidate, weeksCoverage, clipLower_eq_max, and_assoc]
  · rw [recommendedReprint, clipLower_eq_max, max_comm]
  · rw [recommendedReprint, clipLower_eq_max]
    exact le_max_right _ _

/-- C6: a record is a redistribution candidate iff its 4-week stock coverage is
below 8 and its warehouse units exceed half the 4-week forecast; the recommended
transfer is the value `forecast_4wk * 2 - units_in_stock` clamped to
`[0, warehouse_units]`, hence never negative and never above the available
warehouse stock. -/
theorem redistribution_candidate_rule (r : InventoryRecord)
    (hw : 0 ≤ r.warehouseUnits) :
    (isRedistributionCandidate r = true ↔
      (r.unitsInStock / max (r.forecast4wk / 4) (1 / 10) < 8 ∧
        r.warehouseUnits > r.forecast4wk * (1 / 2))) ∧
    recommendedTransfer r =
      min (max (r.forecast4wk * 2 - r.unitsInStock) 0) r.warehouseUnits ∧
    0 ≤ recommendedTransfer r ∧ recommendedTransfer r ≤ r.warehouseUnits := by
  have ht : recommendedTransfer r =
      min (max (r.forecast4wk * 2 - r.unitsInStock) 0) r.warehouseUnits := by
    rw [recommendedTransfer, clipLower_eq_max, clipUpper_eq_min]
  refine ⟨?_, ht, ?_, ?_⟩
  · simp [isRedistributionCandidate, weeksCoverage, clipLower_eq_max]
  · rw [ht]
    exact le_min (le_max_right _ _) hw
  · rw [ht]
    exact min_le_right _ _

/-- C6 witness: the bounds hold at a concrete record with warehouse stock 5. -/
theorem redistribution_candidate_rule_witness :
    0 ≤ ((⟨2, 5, 0, 0, 0, 4, 0, "In Print"⟩ : InventoryRecord)).warehouseUnits ∧
    0 ≤ recommendedTransfer ⟨2, 5, 0, 0, 0, 4, 0, "In Print"⟩ ∧
    recommendedTransfer ⟨2, 5, 0, 0, 0, 4, 0, "In Print"⟩ ≤ (5 : ℚ) := by
  have h := redistribution_candidate_rule ⟨2, 5, 0, 0, 0, 4, 0, "In Print"⟩ (by norm_num)
  exact ⟨by norm_num, h.2.2.1, h.2.2.2⟩

/-- C8: the custom-report reprint recommendation is
`max 0 (forecast_12wk * 1.2 - units_in_stock - warehouse_units)`, and it is a
computation distinct from the reprint-candidate quantity: on a record with
positive 12-week forecast the two differ. -/
theorem custom_reprint_formula (r : InventoryRecord) :
    reprintRecommendationCustom r =
      max 0 (r.forecast12wk * (6 / 5) - r.unitsInStock - r.warehouseUnits) ∧
    ∃ s : InventoryRecord, 0 < s.forecast12wk ∧
      reprintRecommendationCustom s ≠ recommendedReprint s := by
  constructor
  · rw [reprintRecommendationCustom, clipLower_eq_max, max_comm]
  · refine ⟨⟨0, 0, 0, 0, 0, 0, 10, "In Print"⟩, by norm_num, ?_⟩
    norm_num [reprintRecommendationCustom, recommendedReprint, clipLower]

/-- C10: the batch job labels a row `High` exactly when stock plus warehouse
units are below the 4-week forecast and `Low` otherwise; every row gets exactly
one of the two labels. -/
theorem stock_risk_labels (r : InventoryRecord) :
    (stockRisk r = "High" ↔ r.unitsInStock + r.warehouseUnits < r.forecast4wk) ∧
    (stockRisk r = "Low" ↔ ¬ (r.unitsInStock + r.warehouseUnits < r.forecast4wk)) ∧
    (stockRisk r = "High" ∨ stockRisk r = "Low") ∧
    ¬ (stockRisk r = "High" ∧ stockRisk r = "Low") := by
  unfold stockRisk
  split_ifs with h <;> simp [h]

/-- Denominator of the custom report's `4-Week Coverage Ratio`,
`book_inventory_dashboard.py` line 467: the raw 4-week forecast, with no floor. -/
def fourWeekCoverageRatioDen (r : InventoryRecord) : ℚ := r.forecast4wk

/-- `4-Week Coverage Ratio`, `book_inventory_dashboard.py` lines 466-467. -/
def fourWeekCoverageRatio (r : InventoryRecord) : ℚ :=
  r.unitsInStock / fourWeekCoverageRatioDen r

/-- Denominator of the brand-level `Stock Coverage Ratio`,
`book_inventory_dashboard.py` lines 212-220: the group sum of the 4-week
forecasts, with no floor. -/
def brandStockCoverageRatioDen (rs : List InventoryRecord) : ℚ :=
  (rs.map (fun r => r.forecast4wk)).sum

/-- Brand-level `Stock Coverage Ratio`, `book_inventory_dashboard.py` line 220. -/
def brandStockCoverageRatio (rs : List InventoryRecord) : ℚ :=
  (rs.map (fun r => r.unitsInStock)).sum / brandStockCoverageRatioDen rs

/-- `Stock Coverage (weeks)`, `book_inventory_dashboard.py` lines 327-328. -/
def stockCoverageWeeks12 (r : InventoryRecord) : ℚ :=
  r.unitsInStock / clipLower (r.forecast12wk / 12) (1 / 10)

theorem replaceZeroOne_ne_zero (d : ℚ) : replaceZeroOne d ≠ 0 := by
  unfold replaceZeroOne
  split_ifs with h <;> simp_all

theorem clipLower_pos (x l : ℚ) (hl : 0 < l) : 0 < clipLower x l := by
  unfold clipLower
  split_ifs with h
  · exact hl
  · exact lt_of_lt_of_le hl (not_lt.mp h)

/-- C7 counterexample: a record whose 4-week forecast is 0 makes the custom
report's `4-Week Coverage Ratio` and the brand-level `Stock Coverage Ratio`
divide by a zero denominator — neither call site substitutes a floor. -/
theorem unguarded_division_counterexample :
    fourWeekCoverageRatioDen ⟨5, 5, 0, 1, 1, 0, 1, "In Print"⟩ = 0 ∧
    brandStockCoverageRatioDen [⟨5, 5, 0, 1, 1, 0, 1, "In Print"⟩] = 0 := by
  constructor <;> norm_num [fourWeekCoverageRatioDen, brandStockCoverageRatioDen]

/-- C7 amended: the divisions of the risk classifier (`replace(0, 1)`) and of the
clip-floored coverage metrics have nonzero denominators for every record, but the
`4-Week Coverage Ratio` and the brand-level `Stock Coverage Ratio` divide by the
raw 4-week forecast (respectively its group sum) with no floor, and that
denominator is zero for a record (a group) whose 4-week forecast is zero. -/
theorem division_guard_amended (r : InventoryRecord) :
    (replaceZeroOne r.forecastThisWeek ≠ 0 ∧ replaceZeroOne r.salesLastWeek ≠ 0 ∧
      replaceZeroOne r.forecast12wk ≠ 0 ∧ replaceZeroOne r.forecast4wk ≠ 0) ∧
    (clipLower r.forecastThisWeek (1 / 10) ≠ 0 ∧
      clipLower (r.forecast4wk / 4) (1 / 10) ≠ 0 ∧
      clipLower (r.forecast12wk / 12) (1 / 10) ≠ 0) ∧
    fourWeekCoverageRatio r = r.unitsInStock / fourWeekCoverageRatioDen r ∧
    brandStockCoverageRatio [r] = r.unitsInStock / brandStockCoverageRatioDen [r] ∧
    (∃ s : InventoryRecord, fourWeekCoverageRatioDen s = 0 ∧
      brandStockCoverageRatioDen [s] = 0) := by
  refine ⟨⟨replaceZeroOne_ne_zero _, replaceZeroOne_ne_zero _, replaceZeroOne_ne_zero _,
      replaceZeroOne_ne_zero _⟩,
    ⟨(clipLower_pos _ _ (by norm_num)).ne', (clipLower_pos _ _ (by norm_num)).ne',
      (clipLower_pos _ _ (by norm_num)).ne'⟩, rfl, ?_, ?_⟩
  · simp [brandStockCoverageRatio, brandStockCoverageRatioDen]
  · exact ⟨⟨5, 5, 0, 1, 1, 0, 1, "In Print"⟩,
      by norm_num [fourWeekCoverageRatioDen, brandStockCoverageRatioDen]⟩

/-- The table augmented by `classify_inventory_risk`: the original input columns
plus the five derived metric columns and the risk category. -/
structure AugmentedRecord where
  base : InventoryRecord
  weeks_until_stockout : ℚ
  dk_warehouse_to_weekly_sales_ratio : ℚ
  total_available_to_12wk_forecast : ℚ
  stock_to_weekly_sales_ratio : ℚ
  ordered_vs_forecasted : ℚ
  risk_category : String
deriving DecidableEq

/-- `classify_inventory_risk` (`book_inventory_risk_dashboard.py` lines 29-58) as
a whole: the input columns plus the derived columns it adds. -/
def classify_inventory_risk (r : InventoryRecord) : AugmentedRecord :=
  ⟨r, weeks_until_stockout r, dk_warehouse_to_weekly_sales_ratio r,
    total_available_to_12wk_forecast r, stock_to_weekly_sales_ratio r,
    ordered_vs_forecasted r, risk_category r⟩

/-- Applying the classifier to an already-augmented table: the derived columns
are overwritten, recomputed from the untouched input columns. -/
def classify_inventory_risk_again (a : AugmentedRecord) : AugmentedRecord :=
  classify_inventory_risk a.base

/-- C9: the classifier is idempotent — reapplying it to its own output leaves
every derived field unchanged — and pure: its output is determined by the values
of the input record's fields alone. -/
theorem classifier_idempotent_pure (r s : InventoryRecord) :
    classify_inventory_risk_again (classify_inventory_risk r) =
      classify_inventory_risk r ∧
    (r.unitsInStock = s.unitsInStock → r.warehouseUnits = s.warehouseUnits →
      r.unitsOrdered = s.unitsOrdered → r.salesLastWeek = s.salesLastWeek →
      r.forecastThisWeek = s.forecastThisWeek → r.forecast4wk = s.forecast4wk →
      r.forecast12wk = s.forecast12wk → r.printStatus = s.printStatus →
      classify_inventory_risk r = classify_inventory_risk s) := by
  constructor
  · rfl
  · intro h1 h2 h3 h4 h5 h6 h7 h8
    have hrs : r = s := by
      cases r
      cases s
      simp_all
    rw [hrs]

/-- C9 witness: idempotence and purity at a concrete record. -/
theorem classifier_idempotent_pure_witness :
    classify_inventory_risk_again
        (classify_inventory_risk ⟨1, 2, 3, 4, 5, 6, 7, "In Print"⟩) =
      classify_inventory_risk ⟨1, 2, 3, 4, 5, 6, 7, "In Print"⟩ ∧
    classify_inventory_risk ⟨1, 2, 3, 4, 5, 6, 7, "In Print"⟩ =
      classify_inventory_risk ⟨1, 2, 3, 4, 5, 6, 7, "In Print"⟩ := by
  have h := classifier_idempotent_pure ⟨1, 2, 3, 4, 5, 6, 7, "In Print"⟩
    ⟨1, 2, 3, 4, 5, 6, 7, "In Print"⟩
  exact ⟨h.1, h.2 rfl rfl rfl rfl rfl rfl rfl rfl⟩

/-- A record as pandas reads it when numeric cells may be missing: `none` models
a `NaN` cell. -/
structure MaybeRecord where
  unitsInStock : Option ℚ
  warehouseUnits : Option ℚ
  unitsOrdered : Option ℚ
  salesLastWeek : Option ℚ
  forecastThisWeek : Option ℚ
  forecast4wk : Option ℚ
  forecast12wk : Option ℚ
  printStatus : String
deriving DecidableEq

/-- NaN-propagating addition. -/
def nanAdd : Option ℚ → Option ℚ → Option ℚ
  | some x, some y => some (x + y)
  | _, _ => none

/-- NaN-propagating division. -/
def nanDiv : Option ℚ → Option ℚ → Option ℚ
  | some x, some y => some (x / y)
  | _, _ => none

/-- pandas `replace(0, 1)` on a possibly-missing cell: a `NaN` stays `NaN`. -/
def nanReplaceZeroOne (d : Option ℚ) : Option ℚ := d.map replaceZeroOne

/-- numpy/pandas ordered comparison: any comparison against `NaN` is false. -/
def nanLt (a : Option ℚ) (c : ℚ) : Bool :=
  match a with
  | some x => decide (x < c)
  | none => false

/-- numpy/pandas ordered comparison: any comparison against `NaN` is false. -/
def nanGt (a : Option ℚ) (c : ℚ) : Bool :=
  match a with
  | some x => decide (c < x)
  | none => false

/-- `weeks_until_stockout` under missing data, `book_inventory_risk_dashboard.py`
line 40. -/
def nan_weeks_until_stockout (r : MaybeRecord) : Option ℚ :=
  nanDiv r.unitsInStock (nanReplaceZeroOne r.forecastThisWeek)

/-- `dk_warehouse_to_weekly_sales_ratio` under missing data, line 41. -/
def nan_dk_warehouse_to_weekly_sales_ratio (r : MaybeRecord) : Option ℚ :=
  nanDiv r.warehouseUnits (nanReplaceZeroOne r.salesLastWeek)

/-- `total_available_to_12wk_forecast` under missing data, line 42. -/
def nan_total_available_to_12wk_forecast (r : MaybeRecord) : Option ℚ :=
  nanDiv (nanAdd r.unitsInStock r.warehouseUnits) (nanReplaceZeroOne r.forecast12wk)

/-- `stock_to_weekly_sales_ratio` under missing data, line 43. -/
def nan_stock_to_weekly_sales_ratio (r : MaybeRecord) : Option ℚ :=
  nanDiv r.unitsInStock (nanReplaceZeroOne r.salesLastWeek)

/-- `ordered_vs_forecasted` under missing data, line 44. -/
def nan_ordered_vs_forecasted (r : MaybeRecord) : Option ℚ :=
  nanDiv r.unitsOrdered (nanReplaceZeroOne r.forecast4wk)

/-- `np.select` under missing data, lines 47-56: conditions on `NaN` metrics are
false, so such a record falls through to the default label. -/
def nan_risk_category (r : MaybeRecord) : String :=
  if nanLt (nan_weeks_until_stockout r) 2 &&
      nanLt (nan_dk_warehouse_to_weekly_sales_ratio r) 4 then
    "high_stockout_risk"
  else if nanGt (nan_total_available_to_12wk_forecast r) 20 ||
      (nanGt (nan_stock_to_weekly_sales_ratio r) 12 &&
        nanGt (nan_ordered_vs_forecasted r) (3 / 2)) then
    "overstocking_risk"
  else "normal"

/-- C4: the code contradicts the claim — a record whose required numeric field
`Forecast sales for this week` is missing is neither skipped nor reported: every
comparison against its NaN-propagated metrics is false, so `np.select` falls
through to its default and the record is silently labelled `normal`. -/
theorem missing_field_labelled_normal :
    nan_risk_category ⟨some 5, some 3, some 2, some 4, none, some 6, some 7,
      "In Print"⟩ = "normal" := by
  norm_num [nan_risk_category, nanLt, nanGt, nan_weeks_until_stockout,
    nan_dk_warehouse_to_weekly_sales_ratio, nan_total_available_to_12wk_forecast,
    nan_stock_to_weekly_sales_ratio, nan_ordered_vs_forecasted, nanDiv, nanAdd,
    nanReplaceZeroOne, replaceZeroOne]

end BooksDataset
